import Mathlib

/-!
Shallow embedding of the AidSorter MCU firmware core (src/mcu/mcu.ino,
protocol-based variant): the serial command protocol, gate actuation state,
debounced sensor latches and the error indicator.  Strings are modelled as
lists of characters; machine integers are naturals reduced modulo the
AVR widths where the source can overflow (unsigned int is 16 bits,
unsigned long is 32 bits on this target).  Hardware writes (servo angles,
the error LED pin, the LCD lines) are recorded as fields of the state so
that the effect of each command is observable.
-/

namespace AidSorter

/-- AVR unsigned int modulus (16 bits): bucket counters wrap here. -/
def UINT_MOD : Nat := 2 ^ 16

/-- AVR unsigned long modulus (32 bits): millis timestamps wrap here. -/
def ULONG_MOD : Nat := 2 ^ 32

/-- Unsigned 32-bit subtraction, as in the expression
(currentTime - lastDebounceTime) of the source. -/
def usub32 (a b : Nat) : Nat := (a % ULONG_MOD + (ULONG_MOD - b % ULONG_MOD)) % ULONG_MOD

-- Configuration constants of the firmware (mcu.ino defines).
def PROGRAM_NAME : List Char := "AidSorter".data
def PROTOCOL_VERSION : List Char := "1.0".data
def PROTOCOL_SEP : Char := '\n'
def servo_angle_open : Nat := 0
def servo_angle_close : Nat := 90
def debounce : Nat := 50
def LCD_COLS : Nat := 20

-- Command tokens (the PCMD defines of mcu.ino).
def PCMD_GET_PROTOCOL_VERSION : List Char := "pro".data
def PCMD_STANDBY : List Char := "stb".data

/-- The statistics command token.  The dispatch at line 384 of mcu.ino tests
a macro named PCMD_SHOW_STATISTICS, which is defined nowhere; line 181
instead defines SHOW_STATISTICS with the value "sts" (and a stray equals
sign in the macro body), so the source as written does not compile.  The
embedding uses the token value of line 181 under the name the dispatch
expects, which is the evident intent. -/
def PCMD_SHOW_STATISTICS : List Char := "sts".data

def PCMD_GATE1_STATUS : List Char := "g1s".data
def PCMD_GATE2_STATUS : List Char := "g2s".data
def PCMD_GATE3_STATUS : List Char := "g3s".data
def PCMD_GATE4_STATUS : List Char := "g4s".data
def PCMD_COUNT_GATE5 : List Char := "ct5".data
def PCMD_PLATFORM_STATUS : List Char := "ps".data
def PCMD_PLATFORM_OPEN : List Char := "pso".data
def PCMD_PLATFORM_CLOSE : List Char := "psc".data
def PCMD_GATE1_OPEN : List Char := "g1o".data
def PCMD_GATE2_OPEN : List Char := "g2o".data
def PCMD_GATE3_OPEN : List Char := "g3o".data
def PCMD_GATE4_OPEN : List Char := "g4o".data
def PCMD_GATE1_CLOSE : List Char := "g1c".data
def PCMD_GATE2_CLOSE : List Char := "g2c".data
def PCMD_GATE3_CLOSE : List Char := "g3c".data
def PCMD_GATE4_CLOSE : List Char := "g4c".data
def PCMD_IR_STATUS : List Char := "irs".data
def PCMD_IR_ACK_1 : List Char := "ir1".data
def PCMD_IR_ACK_2 : List Char := "ir2".data
def PCMD_IR_ACK_3 : List Char := "ir3".data
def PCMD_IR_ACK_4 : List Char := "ir4".data
def PCMD_IR_ACK_5 : List Char := "ir5".data
def PCMD_ERR_LED_STATUS : List Char := "els".data
def PCMD_ERR_LED_ON : List Char := "elh".data
def PCMD_ERR_LED_OFF : List Char := "ell".data

-- Response tokens (the PRES defines of mcu.ino).
def PRES_READY : List Char := "RDY".data
def PRES_SUCCESS : List Char := "OK".data
def PRES_PLATFORM_SUCCESS : List Char := "OKP".data
def PRES_FAILURE : List Char := "KO".data
def PRES_PVER_PFX : List Char := "PV:".data
def PRES_GATE_OPEN : List Char := "GO".data
def PRES_GATE_CLOSED : List Char := "GC".data
def PRES_PLATFORM_OPEN : List Char := "PO".data
def PRES_PLATFORM_CLOSED : List Char := "PC".data
def PRES_ERR_LED_ON : List Char := "ELH".data
def PRES_ERR_LED_OFF : List Char := "ELL".data
def PRES_IR_STATUS_PFX : List Char := "IS:".data

/-- ProtocolCodec encode: appends the separator (mcu.ino line 266). -/
def encodeMessage (message : List Char) : List Char := message ++ [PROTOCOL_SEP]

/-- Index of the first separator, as Arduino String.indexOf: none models the
return value -1 of the source. -/
def indexOfSep : List Char → Option Nat
  | [] => none
  | c :: rest => if c = PROTOCOL_SEP then some 0 else (indexOfSep rest).map (· + 1)

/-- ProtocolCodec decode (mcu.ino lines 267-270):
message.substring(0, message.indexOf(PROTOCOL_SEP)).  When the separator is
absent, indexOf returns -1, which the unsigned right bound of Arduino
substring clamps to the string length, so the whole message is returned. -/
def decodeMessage (message : List Char) : List Char :=
  match indexOfSep message with
  | some i => message.take i
  | none => message

/-- Case-insensitive token comparison, as Arduino String.equalsIgnoreCase. -/
def eqIgnoreCase (a b : List Char) : Bool := a.map Char.toLower == b.map Char.toLower

/-- The full firmware state: the global variables of mcu.ino plus the last
value written to each hardware output (servo angles, error LED pin, the four
LCD text lines).  The platform servo is never attached or written during
setup, so its angle starts as none. -/
structure MCUState where
  gate1_open : Bool
  gate2_open : Bool
  gate3_open : Bool
  gate4_open : Bool
  platform_open : Bool
  ir_detected_bucket1 : Bool
  ir_detected_bucket2 : Bool
  ir_detected_bucket3 : Bool
  ir_detected_bucket4 : Bool
  ir_detected_bucket5 : Bool
  is_err_led_on : Bool
  ldt_gate1 : Nat
  ldt_gate2 : Nat
  ldt_gate3 : Nat
  ldt_gate4 : Nat
  ldt_gate5 : Nat
  bucket1_count : Nat
  bucket2_count : Nat
  bucket3_count : Nat
  bucket4_count : Nat
  bucket5_count : Nat
  gate1_angle : Nat
  gate2_angle : Nat
  gate3_angle : Nat
  gate4_angle : Nat
  platform_angle : Option Nat
  err_led_pin : Bool
  lcd0 : List Char
  lcd1 : List Char
  lcd2 : List Char
  lcd3 : List Char
  deriving DecidableEq, Repr

/-- An LCD line as printed by updateLCDContents: the text followed by blanks
up to the LCD width (mcu.ino lines 272-301). -/
def padTo (line : List Char) : List Char :=
  line ++ List.replicate (LCD_COLS - line.length) ' '

/-- showStandbyScreen (mcu.ino lines 303-306): renders the program name,
protocol version and a waiting notice via updateLCDContents. -/
def showStandbyScreen (s : MCUState) : MCUState :=
  { s with lcd0 := padTo PROGRAM_NAME
         , lcd1 := padTo PROTOCOL_VERSION
         , lcd2 := padTo ("Waiting...".data)
         , lcd3 := padTo [] }

/-- showBucketStatistics (mcu.ino lines 308-319): clears the LCD and prints
one line per bucket with its item count. -/
def showBucketStatistics (s : MCUState) : MCUState :=
  { s with lcd0 := "Canned Goods: ".data ++ (Nat.repr s.bucket1_count).data
         , lcd1 := "Hygiene:      ".data ++ (Nat.repr s.bucket2_count).data
         , lcd2 := "Biscuits:     ".data ++ (Nat.repr s.bucket3_count).data
         , lcd3 := "Noodles:      ".data ++ (Nat.repr s.bucket4_count).data }

/-- checkProximitySensor (mcu.ino lines 321-335).  sensorLow is the result of
the test digitalRead(sensorPin) == LOW; now is the millis reading of this
poll.  Returns the new (lastDebounceTime, ir_detected) pair: when the level
is low and the unsigned elapsed time exceeds the debounce delay, the latch is
set and the timestamp updated; otherwise both are unchanged.  The latch is
never cleared here. -/
def checkProximitySensor (sensorLow : Bool) (now : Nat) (lastDebounceTime : Nat)
    (ir_detected : Bool) : Nat × Bool :=
  if sensorLow then
    let currentTime := now % ULONG_MOD
    if usub32 currentTime lastDebounceTime > debounce then (currentTime, true)
    else (lastDebounceTime, ir_detected)
  else (lastDebounceTime, ir_detected)

/-- The command dispatch: the if-else chain of loop (mcu.ino lines 374-530).
Each branch produces exactly one encoded response; the else branch answers
with the failure token.  Note the platform-open branch (lines 480-485): the
source writes the open angle to the platform servo but then sets gate4_open,
not platform_open. -/
def dispatch (s : MCUState) (command : List Char) : MCUState × List (List Char) :=
  if eqIgnoreCase command PCMD_GET_PROTOCOL_VERSION then
    (s, [encodeMessage ( PRES_PVER_PFX ++ PROTOCOL_VERSION)])
  else if eqIgnoreCase command PCMD_STANDBY then
    (showStandbyScreen s, [encodeMessage PRES_SUCCESS])
  else if eqIgnoreCase command PCMD_SHOW_STATISTICS then
    (showBucketStatistics s, [encodeMessage PRES_SUCCESS])
  else if eqIgnoreCase command PCMD_ERR_LED_STATUS then
    (s, [encodeMessage (if s.is_err_led_on then PRES_ERR_LED_ON else PRES_ERR_LED_OFF)])
  else if eqIgnoreCase command PCMD_ERR_LED_ON then
    ({ s with err_led_pin := true }, [encodeMessage PRES_SUCCESS])
  else if eqIgnoreCase command PCMD_ERR_LED_OFF then
    ({ s with err_led_pin := false }, [encodeMessage PRES_SUCCESS])
  else if eqIgnoreCase command PCMD_GATE1_STATUS then
    (s, [encodeMessage (if s.gate1_open then PRES_GATE_OPEN else PRES_GATE_CLOSED)])
  else if eqIgnoreCase command PCMD_GATE2_STATUS then
    (s, [encodeMessage (if s.gate2_open then PRES_GATE_OPEN else PRES_GATE_CLOSED)])
  else if eqIgnoreCase command PCMD_GATE3_STATUS then
    (s, [encodeMessage (if s.gate3_open then PRES_GATE_OPEN else PRES_GATE_CLOSED)])
  else if eqIgnoreCase command PCMD_GATE4_STATUS then
    (s, [encodeMessage (if s.gate4_open then PRES_GATE_OPEN else PRES_GATE_CLOSED)])
  else if eqIgnoreCase command PCMD_GATE1_OPEN then
    ({ s with gate1_angle := servo_angle_open, gate1_open := true
            , bucket1_count := (s.bucket1_count + 1) % UINT_MOD },
     [encodeMessage PRES_SUCCESS])
  else if eqIgnoreCase command PCMD_GATE2_OPEN then
    ({ s with gate2_angle := servo_angle_open, gate2_open := true
            , bucket2_count := (s.bucket2_count + 1) % UINT_MOD },
     [encodeMessage PRES_SUCCESS])
  else if eqIgnoreCase command PCMD_GATE3_OPEN then
    ({ s with gate3_angle := servo_angle_open, gate3_open := true
            , bucket3_count := (s.bucket3_count + 1) % UINT_MOD },
     [encodeMessage PRES_SUCCESS])
  else if eqIgnoreCase command PCMD_GATE4_OPEN then
    ({ s with gate4_angle := servo_angle_open, gate4_open := true
            , bucket4_count := (s.bucket4_count + 1) % UINT_MOD },
     [encodeMessage PRES_SUCCESS])
  else if eqIgnoreCase command PCMD_GATE1_CLOSE then
    ({ s with gate1_angle := servo_angle_close, gate1_open := false },
     [encodeMessage PRES_SUCCESS])
  else if eqIgnoreCase command PCMD_GATE2_CLOSE then
    ({ s with gate2_angle := servo_angle_close, gate2_open := false },
     [encodeMessage PRES_SUCCESS])
  else if eqIgnoreCase command PCMD_GATE3_CLOSE then
    ({ s with gate3_angle := servo_angle_close, gate3_open := false },
     [encodeMessage PRES_SUCCESS])
  else if eqIgnoreCase command PCMD_GATE4_CLOSE then
    ({ s with gate4_angle := servo_angle_close, gate4_open := false },
     [encodeMessage PRES_SUCCESS])
  else if eqIgnoreCase command PCMD_COUNT_GATE5 then
    ({ s with bucket5_count := (s.bucket5_count + 1) % UINT_MOD },
     [encodeMessage PRES_SUCCESS])
  else if eqIgnoreCase command PCMD_PLATFORM_STATUS then
    (s, [encodeMessage (if s.platform_open then PRES_PLATFORM_OPEN else PRES_PLATFORM_CLOSED)])
  else if eqIgnoreCase command PCMD_PLATFORM_OPEN then
    ({ s with platform_angle := some servo_angle_open, gate4_open := true },
     [encodeMessage PRES_PLATFORM_SUCCESS])
  else if eqIgnoreCase command PCMD_PLATFORM_CLOSE then
    ({ s with platform_angle := some servo_angle_close, platform_open := false },
     [encodeMessage PRES_PLATFORM_SUCCESS])
  else if eqIgnoreCase command PCMD_IR_STATUS then
    (s, [encodeMessage ( PRES_IR_STATUS_PFX
        ++ (if s.ir_detected_bucket1 then "1".data else "0".data)
        ++ (if s.ir_detected_bucket2 then "1".data else "0".data)
        ++ (if s.ir_detected_bucket3 then "1".data else "0".data)
        ++ (if s.ir_detected_bucket4 then "1".data else "0".data)
        ++ (if s.ir_detected_bucket5 then "1".data else "0".data))])
  else if eqIgnoreCase command PCMD_IR_ACK_1 then
    ({ s with ir_detected_bucket1 := false }, [encodeMessage PRES_SUCCESS])
  else if eqIgnoreCase command PCMD_IR_ACK_2 then
    ({ s with ir_detected_bucket2 := false }, [encodeMessage PRES_SUCCESS])
  else if eqIgnoreCase command PCMD_IR_ACK_3 then
    ({ s with ir_detected_bucket3 := false }, [encodeMessage PRES_SUCCESS])
  else if eqIgnoreCase command PCMD_IR_ACK_4 then
    ({ s with ir_detected_bucket4 := false }, [encodeMessage PRES_SUCCESS])
  else if eqIgnoreCase command PCMD_IR_ACK_5 then
    ({ s with ir_detected_bucket5 := false }, [encodeMessage PRES_SUCCESS])
  else
    (s, [encodeMessage PRES_FAILURE])

/-- One main-loop iteration worth of environment input: the complete serial
line if Serial.available was positive (none otherwise), the digitalRead
results of the five IR pins compared against LOW, and the millis reading. -/
structure LoopInput where
  line : Option (List Char)
  raw1 : Bool
  raw2 : Bool
  raw3 : Bool
  raw4 : Bool
  raw5 : Bool
  now : Nat
  deriving Repr

/-- The five checkProximitySensor calls of mcu.ino lines 533-537.  The calls
are sequential in the source but touch disjoint variables, so reading all
inputs from s is equivalent. -/
def pollSensors (s : MCUState) (inp : LoopInput) : MCUState :=
  let r1 := checkProximitySensor inp.raw1 inp.now s.ldt_gate1 s.ir_detected_bucket1
  let r2 := checkProximitySensor inp.raw2 inp.now s.ldt_gate2 s.ir_detected_bucket2
  let r3 := checkProximitySensor inp.raw3 inp.now s.ldt_gate3 s.ir_detected_bucket3
  let r4 := checkProximitySensor inp.raw4 inp.now s.ldt_gate4 s.ir_detected_bucket4
  let r5 := checkProximitySensor inp.raw5 inp.now s.ldt_gate5 s.ir_detected_bucket5
  { s with ldt_gate1 := r1.1, ir_detected_bucket1 := r1.2
         , ldt_gate2 := r2.1, ir_detected_bucket2 := r2.2
         , ldt_gate3 := r3.1, ir_detected_bucket3 := r3.2
         , ldt_gate4 := r4.1, ir_detected_bucket4 := r4.2
         , ldt_gate5 := r5.1, ir_detected_bucket5 := r5.2 }

/-- One iteration of loop (mcu.ino lines 369-539).  When no serial input is
available the body does nothing: the five checkProximitySensor calls sit
inside the Serial.available conditional (the closing brace at line 538 ends
that conditional, line 539 ends loop), so sensors are polled only in
iterations that also dispatched a command. -/
def loopStep (s : MCUState) (inp : LoopInput) : MCUState × List (List Char) :=
  match inp.line with
  | none => (s, [])
  | some raw =>
    let r := dispatch s (decodeMessage raw)
    (pollSensors r.1 inp, r.2)

/-- The state after setup (mcu.ino lines 337-367): gates closed at the close
angle, the platform servo untouched, all latches and counters cleared, the
error LED pin driven low by pinMode default, the standby screen rendered. -/
def initState : MCUState :=
  showStandbyScreen
  { gate1_open := false, gate2_open := false, gate3_open := false
  , gate4_open := false, platform_open := false
  , ir_detected_bucket1 := false, ir_detected_bucket2 := false
  , ir_detected_bucket3 := false, ir_detected_bucket4 := false
  , ir_detected_bucket5 := false
  , is_err_led_on := false
  , ldt_gate1 := 0, ldt_gate2 := 0, ldt_gate3 := 0, ldt_gate4 := 0, ldt_gate5 := 0
  , bucket1_count := 0, bucket2_count := 0, bucket3_count := 0
  , bucket4_count := 0, bucket5_count := 0
  , gate1_angle := servo_angle_close, gate2_angle := servo_angle_close
  , gate3_angle := servo_angle_close, gate4_angle := servo_angle_close
  , platform_angle := none
  , err_led_pin := false
  , lcd0 := [], lcd1 := [], lcd2 := [], lcd3 := [] }

/-- Runs the main loop over a list of per-iteration inputs. -/
def runTrace (s : MCUState) : List LoopInput → MCUState
  | [] => s
  | inp :: rest => runTrace (loopStep s inp).1 rest

/-- The tokens the dispatch chain recognises, in chain order. -/
def knownTokens : List (List Char) :=
  [ PCMD_GET_PROTOCOL_VERSION, PCMD_STANDBY, PCMD_SHOW_STATISTICS
  , PCMD_ERR_LED_STATUS, PCMD_ERR_LED_ON, PCMD_ERR_LED_OFF
  , PCMD_GATE1_STATUS, PCMD_GATE2_STATUS, PCMD_GATE3_STATUS, PCMD_GATE4_STATUS
  , PCMD_GATE1_OPEN, PCMD_GATE2_OPEN, PCMD_GATE3_OPEN, PCMD_GATE4_OPEN
  , PCMD_GATE1_CLOSE, PCMD_GATE2_CLOSE, PCMD_GATE3_CLOSE, PCMD_GATE4_CLOSE
  , PCMD_COUNT_GATE5, PCMD_PLATFORM_STATUS, PCMD_PLATFORM_OPEN, PCMD_PLATFORM_CLOSE
  , PCMD_IR_STATUS, PCMD_IR_ACK_1, PCMD_IR_ACK_2, PCMD_IR_ACK_3
  , PCMD_IR_ACK_4, PCMD_IR_ACK_5 ]

/-- Open command token of gate i. -/
def gateOpenTok (i : Fin 4) : List Char :=
  match i.val with
  | 0 => PCMD_GATE1_OPEN
  | 1 => PCMD_GATE2_OPEN
  | 2 => PCMD_GATE3_OPEN
  | _ => PCMD_GATE4_OPEN

/-- Close command token of gate i. -/
def gateCloseTok (i : Fin 4) : List Char :=
  match i.val with
  | 0 => PCMD_GATE1_CLOSE
  | 1 => PCMD_GATE2_CLOSE
  | 2 => PCMD_GATE3_CLOSE
  | _ => PCMD_GATE4_CLOSE

/-- Status command token of gate i. -/
def gateStatusTok (i : Fin 4) : List Char :=
  match i.val with
  | 0 => PCMD_GATE1_STATUS
  | 1 => PCMD_GATE2_STATUS
  | 2 => PCMD_GATE3_STATUS
  | _ => PCMD_GATE4_STATUS

/-- Acknowledge command token of sensor i. -/
def ackTok (i : Fin 5) : List Char :=
  match i.val with
  | 0 => PCMD_IR_ACK_1
  | 1 => PCMD_IR_ACK_2
  | 2 => PCMD_IR_ACK_3
  | 3 => PCMD_IR_ACK_4
  | _ => PCMD_IR_ACK_5

/-- The gate flag of gate i. -/
def gateIsOpen (s : MCUState) (i : Fin 4) : Bool :=
  match i.val with
  | 0 => s.gate1_open
  | 1 => s.gate2_open
  | 2 => s.gate3_open
  | _ => s.gate4_open

/-- The bucket counter of gate i. -/
def bucketCount (s : MCUState) (i : Fin 4) : Nat :=
  match i.val with
  | 0 => s.bucket1_count
  | 1 => s.bucket2_count
  | 2 => s.bucket3_count
  | _ => s.bucket4_count

/-- The detection latch of sensor i. -/
def irDetected (s : MCUState) (i : Fin 5) : Bool :=
  match i.val with
  | 0 => s.ir_detected_bucket1
  | 1 => s.ir_detected_bucket2
  | 2 => s.ir_detected_bucket3
  | 3 => s.ir_detected_bucket4
  | _ => s.ir_detected_bucket5

end AidSorter

namespace AidSorter

/-- Helper: a nested conditional whose leaves all satisfy a two-valued
disjunction satisfies it as well. -/
theorem ite_or {α} (c : Prop) [Decidable c] (a b u v : α)
    (ha : a = u ∨ a = v) (hb : b = u ∨ b = v) :
    (if c then a else b) = u ∨ (if c then a else b) = v := by
  split
  · exact ha
  · exact hb

/-- Helper: every recognised token is already lower case. -/
theorem hlowAll : ∀ t ∈ knownTokens, t.map Char.toLower = t := by decide

/-- Helper: a command whose lower-cased form matches no recognised token
falls through the whole chain to the failure branch without touching the
state. -/
theorem dispatch_unknown (s : MCUState) (c : List Char)
    (h : c.map Char.toLower ∉ knownTokens) :
    dispatch s c = (s, [encodeMessage PRES_FAILURE]) := by
  have hne : ∀ t ∈ knownTokens, eqIgnoreCase c t = false := by
    intro t ht
    unfold eqIgnoreCase
    rw [hlowAll t ht]
    exact beq_eq_false_iff_ne.mpr fun he => h (he ▸ ht)
  unfold dispatch
  rw [ hne PCMD_GET_PROTOCOL_VERSION (by decide), hne PCMD_STANDBY (by decide)
     , hne PCMD_SHOW_STATISTICS (by decide), hne PCMD_ERR_LED_STATUS (by decide)
     , hne PCMD_ERR_LED_ON (by decide), hne PCMD_ERR_LED_OFF (by decide)
     , hne PCMD_GATE1_STATUS (by decide), hne PCMD_GATE2_STATUS (by decide)
     , hne PCMD_GATE3_STATUS (by decide), hne PCMD_GATE4_STATUS (by decide)
     , hne PCMD_GATE1_OPEN (by decide), hne PCMD_GATE2_OPEN (by decide)
     , hne PCMD_GATE3_OPEN (by decide), hne PCMD_GATE4_OPEN (by decide)
     , hne PCMD_GATE1_CLOSE (by decide), hne PCMD_GATE2_CLOSE (by decide)
     , hne PCMD_GATE3_CLOSE (by decide), hne PCMD_GATE4_CLOSE (by decide)
     , hne PCMD_COUNT_GATE5 (by decide), hne PCMD_PLATFORM_STATUS (by decide)
     , hne PCMD_PLATFORM_OPEN (by decide), hne PCMD_PLATFORM_CLOSE (by decide)
     , hne PCMD_IR_STATUS (by decide), hne PCMD_IR_ACK_1 (by decide)
     , hne PCMD_IR_ACK_2 (by decide), hne PCMD_IR_ACK_3 (by decide)
     , hne PCMD_IR_ACK_4 (by decide), hne PCMD_IR_ACK_5 (by decide)]
  simp

/-- Helper: polling never touches the platform flag. -/
theorem pollSensors_platform_flag (s : MCUState) (inp : LoopInput) :
    (pollSensors s inp).platform_open = s.platform_open := rfl

/-- Helper: no dispatch branch ever sets the platform flag to true; the
platform-open branch sets gate4_open instead, and the platform-close branch
writes false. -/
theorem dispatch_platform_flag (s : MCUState) (c : List Char)
    (h : s.platform_open = false) : (dispatch s c).1.platform_open = false := by
  unfold dispatch
  simp only [apply_ite (fun p : MCUState × List (List Char) => p.1.platform_open)]
  simp [showStandbyScreen, showBucketStatistics, h]

/-- Helper: the platform flag stays false along every trace of the main
loop. -/
theorem runTrace_platform_flag (tr : List LoopInput) (s : MCUState)
    (h : s.platform_open = false) : (runTrace s tr).platform_open = false := by
  induction tr generalizing s with
  | nil => exact h
  | cons inp rest ih =>
    apply ih
    cases hl : inp.line with
    | none => simpa [loopStep, hl] using h
    | some raw =>
      have e : (loopStep s inp).1
          = pollSensors (dispatch s (decodeMessage raw)).1 inp := by
        simp [loopStep, hl]
      rw [e, pollSensors_platform_flag]
      exact dispatch_platform_flag s (decodeMessage raw) h

def c3Input : LoopInput :=
  { line := none, raw1 := true, raw2 := true, raw3 := true, raw4 := true
  , raw5 := true, now := 1000 }

def c3CmdInput : LoopInput :=
  { line := some PCMD_STANDBY, raw1 := true, raw2 := true, raw3 := true
  , raw4 := true, raw5 := true, now := 1000 }

/-- Claim C1 (code-bug evidence): dispatching the error-LED on command drives
the LED pin high but does not update the queryable flag is_err_led_on, so the
error-LED status command dispatched right after still produces the led-off
response, not the led-on response the claim requires. -/
theorem errLed_flag_not_updated_by_set :
    (dispatch initState PCMD_ERR_LED_ON).1.err_led_pin = true
    ∧ (dispatch (dispatch initState PCMD_ERR_LED_ON).1 PCMD_ERR_LED_STATUS).2
        = [encodeMessage PRES_ERR_LED_OFF]
    ∧ PRES_ERR_LED_OFF ≠ PRES_ERR_LED_ON := by decide

/-- Claim C2 (code-bug evidence): dispatching the platform-open command from
the initial state sets the gate-4 flag to true while the gate-4 actuator
angle stays at the close angle, so the flag and the angle diverge, against
the invariant the claim states. -/
theorem platform_cmd_breaks_gate4_angle :
    (dispatch initState PCMD_PLATFORM_OPEN).1.gate4_open = true
    ∧ (dispatch initState PCMD_PLATFORM_OPEN).1.gate4_angle = servo_angle_close
    ∧ servo_angle_close ≠ servo_angle_open := by decide

/-- Claim C3 (counterexample): in a loop iteration with no serial input, with
every raw sensor level indicating presence and the debounce window elapsed,
the loop body leaves every latch untouched, while a poll of the sensors in
that iteration would set the latch: the sensor polls are not executed in
iterations without a complete command line. -/
theorem sensors_not_polled_without_serial_input :
    (loopStep initState c3Input).1.ir_detected_bucket1 = false
    ∧ (pollSensors initState c3Input).ir_detected_bucket1 = true := by decide

/-- Claim C3 (amended): the loop polls the five proximity sensors with the
debounce logic exactly in those iterations in which a complete command line
arrived, after dispatching the command; an iteration without serial input
does nothing at all. -/
theorem sensors_polled_only_with_command (s : MCUState) (inp : LoopInput)
    (raw : List Char) :
    (inp.line = none → loopStep s inp = (s, []))
    ∧ (inp.line = some raw →
        loopStep s inp
          = (pollSensors (dispatch s (decodeMessage raw)).1 inp,
             (dispatch s (decodeMessage raw)).2)) := by
  constructor
  · intro h
    simp [loopStep, h]
  · intro h
    simp [loopStep, h]

/-- Witness for the amended claim C3, at a concrete standby-command input. -/
theorem sensors_polled_only_with_command_witness :
    loopStep initState c3CmdInput
      = (pollSensors (dispatch initState (decodeMessage PCMD_STANDBY)).1 c3CmdInput,
         (dispatch initState (decodeMessage PCMD_STANDBY)).2) :=
  (sensors_polled_only_with_command initState c3CmdInput PCMD_STANDBY).2 rfl

/-- Claim C4 (code-bug evidence): the platform-open command, which is neither
the open nor the close command of gate 4, still flips the gate-4 flag from
false to true. -/
theorem platform_cmd_mutates_gate4_flag :
    initState.gate4_open = false
    ∧ (dispatch initState PCMD_PLATFORM_OPEN).1.gate4_open = true
    ∧ PCMD_PLATFORM_OPEN ≠ gateOpenTok 3
    ∧ PCMD_PLATFORM_OPEN ≠ gateCloseTok 3 := by decide

/-- Claim C5: dispatching the statistics command renders the four per-bucket
item counts on the display collaborator and produces the fixed success
response.  This holds of the dispatch with the statistics token taken from
line 181 of the source; the source itself does not compile because the
dispatch names a macro that is never defined. -/
theorem statistics_renders_counts (s : MCUState) :
    dispatch s PCMD_SHOW_STATISTICS
      = (showBucketStatistics s, [encodeMessage PRES_SUCCESS])
    ∧ (showBucketStatistics s).lcd0
        = "Canned Goods: ".data ++ (Nat.repr s.bucket1_count).data
    ∧ (showBucketStatistics s).lcd1
        = "Hygiene:      ".data ++ (Nat.repr s.bucket2_count).data
    ∧ (showBucketStatistics s).lcd2
        = "Biscuits:     ".data ++ (Nat.repr s.bucket3_count).data
    ∧ (showBucketStatistics s).lcd3
        = "Noodles:      ".data ++ (Nat.repr s.bucket4_count).data :=
  ⟨rfl, rfl, rfl, rfl, rfl⟩

/-- Claim C6: along every trace of the main loop from the initial state the
platform flag stays false - the platform-open branch sets the gate-4 flag
instead - so the platform-status command always produces the platform-closed
response. -/
theorem platform_flag_never_set (tr : List LoopInput) :
    (runTrace initState tr).platform_open = false
    ∧ (dispatch (runTrace initState tr) PCMD_PLATFORM_STATUS).2
        = [encodeMessage PRES_PLATFORM_CLOSED] := by
  have h := runTrace_platform_flag tr initState rfl
  refine ⟨h, ?_⟩
  have e : dispatch (runTrace initState tr) PCMD_PLATFORM_STATUS
      = (runTrace initState tr,
         [encodeMessage (if (runTrace initState tr).platform_open
            then PRES_PLATFORM_OPEN else PRES_PLATFORM_CLOSED)]) := rfl
  rw [e, h]
  simp

/-- Claim C7: for every gate, open followed by status answers gate-open and
close followed by status answers gate-closed; an accepted open command adds
exactly one to that gate bucket counter (below the 16-bit wrap, which the
spec puts out of scope), and every command leaves each bucket counter either
unchanged or incremented by that same single open step - none decrements or
resets it. -/
theorem gate_cmd_props (s : MCUState) (i : Fin 4)
    (h : bucketCount s i + 1 < UINT_MOD) :
    (dispatch (dispatch s (gateOpenTok i)).1 (gateStatusTok i)).2
        = [encodeMessage PRES_GATE_OPEN]
    ∧ (dispatch (dispatch s (gateCloseTok i)).1 (gateStatusTok i)).2
        = [encodeMessage PRES_GATE_CLOSED]
    ∧ bucketCount (dispatch s (gateOpenTok i)).1 i = bucketCount s i + 1
    ∧ ∀ c, bucketCount (dispatch s c).1 i = bucketCount s i
        ∨ bucketCount (dispatch s c).1 i = (bucketCount s i + 1) % UINT_MOD := by
  fin_cases i
  · refine ⟨rfl, rfl, Nat.mod_eq_of_lt h, fun c => ?_⟩
    show (dispatch s c).1.bucket1_count = s.bucket1_count
      ∨ (dispatch s c).1.bucket1_count = (s.bucket1_count + 1) % UINT_MOD
    unfold dispatch
    simp only [apply_ite (fun p : MCUState × List (List Char) => p.1.bucket1_count)]
    repeat'
      first
      | exact Or.inl rfl
      | exact Or.inr rfl
      | apply ite_or
  · refine ⟨rfl, rfl, Nat.mod_eq_of_lt h, fun c => ?_⟩
    show (dispatch s c).1.bucket2_count = s.bucket2_count
      ∨ (dispatch s c).1.bucket2_count = (s.bucket2_count + 1) % UINT_MOD
    unfold dispatch
    simp only [apply_ite (fun p : MCUState × List (List Char) => p.1.bucket2_count)]
    repeat'
      first
      | exact Or.inl rfl
      | exact Or.inr rfl
      | apply ite_or
  · refine ⟨rfl, rfl, Nat.mod_eq_of_lt h, fun c => ?_⟩
    show (dispatch s c).1.bucket3_count = s.bucket3_count
      ∨ (dispatch s c).1.bucket3_count = (s.bucket3_count + 1) % UINT_MOD
    unfold dispatch
    simp only [apply_ite (fun p : MCUState × List (List Char) => p.1.bucket3_count)]
    repeat'
      first
      | exact Or.inl rfl
      | exact Or.inr rfl
      | apply ite_or
  · refine ⟨rfl, rfl, Nat.mod_eq_of_lt h, fun c => ?_⟩
    show (dispatch s c).1.bucket4_count = s.bucket4_count
      ∨ (dispatch s c).1.bucket4_count = (s.bucket4_count + 1) % UINT_MOD
    unfold dispatch
    simp only [apply_ite (fun p : MCUState × List (List Char) => p.1.bucket4_count)]
    repeat'
      first
      | exact Or.inl rfl
      | exact Or.inr rfl
      | apply ite_or

/-- Witness for claim C7: opening gate 1 from the initial state bumps the
first bucket counter from zero to one. -/
theorem gate_cmd_props_witness :
    bucketCount (dispatch initState (gateOpenTok 0)).1 0
      = bucketCount initState 0 + 1 :=
  (gate_cmd_props initState 0 (by decide)).2.2.1

/-- Claim C8: a poll never clears a detection latch; it sets the latch (and
then also updates the debounce timestamp to the current time) only when the
raw level reads low and the unsigned elapsed time since the stored timestamp
exceeds the debounce window, and otherwise changes nothing; the acknowledge
command of each sensor clears that latch unconditionally in every state. -/
theorem sensor_latch_props :
    (∀ (sensorLow : Bool) (now ldt : Nat) (detected : Bool),
      (detected = true → (checkProximitySensor sensorLow now ldt detected).2 = true)
      ∧ ((checkProximitySensor sensorLow now ldt detected).2 = true ∧ detected = false →
          sensorLow = true ∧ usub32 (now % ULONG_MOD) ldt > debounce
            ∧ checkProximitySensor sensorLow now ldt detected = (now % ULONG_MOD, true))
      ∧ (¬(sensorLow = true ∧ usub32 (now % ULONG_MOD) ldt > debounce) →
          checkProximitySensor sensorLow now ldt detected = (ldt, detected)))
    ∧ (∀ (s : MCUState) (i : Fin 5), irDetected (dispatch s (ackTok i)).1 i = false) := by
  refine ⟨fun sensorLow now ldt detected => ?_, fun s i => ?_⟩
  · cases sensorLow
    · refine ⟨fun hd => ?_, fun hcon => ?_, fun _ => rfl⟩
      · simpa [checkProximitySensor] using hd
      · rcases hcon with ⟨h1, h2⟩
        have h3 : detected = true := by simpa [checkProximitySensor] using h1
        rw [h3] at h2
        cases h2
    · by_cases hd : usub32 (now % ULONG_MOD) ldt > debounce
      · refine ⟨fun _ => ?_, fun _ => ⟨rfl, hd, ?_⟩, fun hcon => absurd ⟨rfl, hd⟩ hcon⟩
        · simp [checkProximitySensor, hd]
        · simp [checkProximitySensor, hd]
      · have he : checkProximitySensor true now ldt detected = (ldt, detected) := by
          simp [checkProximitySensor, hd]
        refine ⟨fun h1 => ?_, fun hcon => ?_, fun _ => he⟩
        · rw [he]
          exact h1
        · rcases hcon with ⟨h1, h2⟩
          rw [he] at h1
          have h3 : detected = true := h1
          rw [h3] at h2
          cases h2
  · fin_cases i <;> rfl

/-- Witness for claim C8: at a concrete qualifying poll the latch is kept,
and the acknowledge command for sensor 1 clears its latch at the initial
state. -/
theorem sensor_latch_props_witness :
    (checkProximitySensor true 100 0 true).2 = true
    ∧ irDetected (dispatch initState (ackTok 0)).1 0 = false :=
  ⟨(sensor_latch_props.1 true 100 0 true).1 rfl,
   sensor_latch_props.2 initState 0⟩

/-- Claim C9: a command whose lower-cased token is outside the recognised
set leaves the state untouched and produces the fixed failure response; and
every dispatched command, recognised or not, produces exactly one
response. -/
theorem unknown_cmd_props (s : MCUState) (c : List Char) :
    (c.map Char.toLower ∉ knownTokens →
        dispatch s c = (s, [encodeMessage PRES_FAILURE]))
    ∧ ((dispatch s c).2).length = 1 := by
  refine ⟨fun h => dispatch_unknown s c h, ?_⟩
  unfold dispatch
  simp only [apply_ite (fun p : MCUState × List (List Char) => p.2.length)]
  simp

/-- Witness for claim C9: a garbage token is rejected with the failure
response and no state change. -/
theorem unknown_cmd_props_witness :
    dispatch initState ("xyz".data) = (initState, [encodeMessage PRES_FAILURE]) :=
  (unknown_cmd_props initState ("xyz".data)).1 (by decide)

/-- Helper: decode returns exactly the characters strictly before the first
separator. -/
theorem decodeMessage_eq_takeWhile (m : List Char) :
    decodeMessage m = m.takeWhile (fun c => c ≠ PROTOCOL_SEP) := by
  simp only [ne_eq, decide_not]
  induction m with
  | nil => rfl
  | cons c rest ih =>
    by_cases hc : c = PROTOCOL_SEP
    · subst hc
      simp [decodeMessage, indexOfSep, List.takeWhile]
    · cases h : indexOfSep rest with
      | none =>
        have hr : decodeMessage rest = rest := by simp [decodeMessage, h]
        simp [decodeMessage, indexOfSep, hc, h, List.takeWhile]
        rw [← ih, hr]
      | some i =>
        have hr : decodeMessage rest = List.take i rest := by
          simp [decodeMessage, h]
        simp [decodeMessage, indexOfSep, hc, h, List.takeWhile]
        rw [← ih, hr]

/-- Helper: taking the prefix before the separator undoes appending it. -/
theorem takeWhile_append_sep (tok : List Char) (h : PROTOCOL_SEP ∉ tok) :
    (tok ++ [PROTOCOL_SEP]).takeWhile (fun c => c ≠ PROTOCOL_SEP) = tok := by
  simp only [ne_eq, decide_not]
  induction tok with
  | nil => simp [List.takeWhile]
  | cons c rest ih =>
    simp only [List.mem_cons, not_or] at h
    simp [List.takeWhile, Ne.symm h.1, ih h.2]

/-- Claim C10: for a token without the separator, decode inverts encode;
decode always returns the part of its input strictly before the first
separator; encode appends exactly one separator. -/
theorem codec_props (m tok : List Char) :
    (PROTOCOL_SEP ∉ tok → decodeMessage (encodeMessage tok) = tok)
    ∧ decodeMessage m = m.takeWhile (fun c => c ≠ PROTOCOL_SEP)
    ∧ (encodeMessage tok).count PROTOCOL_SEP = tok.count PROTOCOL_SEP + 1 := by
  refine ⟨fun h => ?_, decodeMessage_eq_takeWhile m, ?_⟩
  · rw [encodeMessage, decodeMessage_eq_takeWhile, takeWhile_append_sep tok h]
  · simp [encodeMessage, List.count_append]

/-- Witness for claim C10: the gate-1 open token round-trips through the
codec. -/
theorem codec_props_witness :
    decodeMessage (encodeMessage PCMD_GATE1_OPEN) = PCMD_GATE1_OPEN :=
  (codec_props ("ab".data) PCMD_GATE1_OPEN).1 (by decide)

end AidSorter
